import Mathlib

/-!
Verification development for the GCE resource-metrics exporters.

The repository contains three small Go programs that periodically list GCE
resources (firewall rules, target pools, forwarding rules, addresses,
networks, routes), group them by a label field, and republish the counts:

* `PullProm` models the Prometheus pull-style variant (gcloud subprocess
  fetch, local gauge registry);
* `PushIface` models the interface-based cloudmonitoring push variant
  (`CustomGaugeMetric` implementations, int64 values);
* `PushPlain` models the plain cloudmonitoring push variant
  (`resource_metrics.go`, double values).

Go maps with string keys are modelled as association lists in first-insertion
order; `metrics[k]++` is the `bump` operation.  Numeric observation values
(int64 counts, and float64 conversions of machine-int counts, which are exact
in the ranges that occur) are modelled as `Int`.  External collaborators (the
compute API, the monitoring sink) are modelled as explicit parameters giving
their responses.
-/

/-- A firewall rule record; only the `network` grouping field is relevant. -/
structure Firewall where
  network : String
deriving DecidableEq

/-- An address record; only the `status` grouping field is relevant. -/
structure Address where
  status : String
deriving DecidableEq

/-- A target pool record. -/
structure TargetPool where
  name : String
deriving DecidableEq

/-- A network record. -/
structure Network where
  name : String
deriving DecidableEq

/-- A route record. -/
structure Route where
  name : String
deriving DecidableEq

/-- One step of the Go counting loop `metrics[k]++` on a string-keyed map
modelled as an association list: increment the entry for `k`, inserting it
with count 1 if absent. -/
def bump : List (String × Nat) → String → List (String × Nat)
  | [], k => [(k, 1)]
  | q :: rest, k => if q.1 = k then (q.1, q.2 + 1) :: rest else q :: bump rest k

/-- The aggregation loop `for _, r := range records { metrics[sel r]++ }`
shared by all three variants (selector `.Network` or `.Status`). -/
def aggregate {α : Type} (sel : α → String) (records : List α) : List (String × Nat) :=
  records.foldl (fun m r => bump m (sel r)) []

/-- Map lookup on the aggregated counts; a missing key has count 0. -/
def lookupCount : List (String × Nat) → String → Nat
  | [], _ => 0
  | q :: rest, k => if q.1 = k then q.2 else lookupCount rest k

/-- Sum of all bucket counts of an aggregated mapping. -/
def sumCounts : List (String × Nat) → Nat
  | [] => 0
  | q :: rest => q.2 + sumCounts rest

/-- Number of occurrences of a key in a list of selector values. -/
def keyCount : List String → String → Nat
  | [], _ => 0
  | s :: rest, k => keyCount rest k + if s = k then 1 else 0

theorem sumCounts_bump (m : List (String × Nat)) (k : String) :
    sumCounts (bump m k) = sumCounts m + 1 := by
  induction m with
  | nil => rfl
  | cons q rest ih =>
    by_cases h : q.1 = k
    · simp [bump, h, sumCounts]
      omega
    · simp [bump, h, sumCounts, ih]
      omega

theorem lookupCount_bump (m : List (String × Nat)) (k k' : String) :
    lookupCount (bump m k) k' = lookupCount m k' + if k = k' then 1 else 0 := by
  induction m with
  | nil =>
    by_cases h : k = k' <;> simp [bump, lookupCount, h]
  | cons q rest ih =>
    by_cases h1 : q.1 = k
    · by_cases h2 : k = k' <;>
        simp [bump, lookupCount, h1, h2]
    · by_cases h3 : q.1 = k'
      · have h2 : ¬ k = k' := fun hk => h1 (h3.trans hk.symm)
        have h2s : ¬ k' = k := fun hk => h2 hk.symm
        simp [bump, lookupCount, h1, h3, h2, h2s]
      · simp [bump, lookupCount, h1, h3, ih]

theorem lookupCount_foldl {α : Type} (sel : α → String) (l : List α)
    (m : List (String × Nat)) (k : String) :
    lookupCount (l.foldl (fun acc r => bump acc (sel r)) m) k =
      lookupCount m k + keyCount (l.map sel) k := by
  induction l generalizing m with
  | nil => simp [keyCount]
  | cons r t ih =>
    simp only [List.foldl_cons, List.map_cons]
    rw [ih, lookupCount_bump]
    simp [keyCount]
    omega

theorem sumCounts_foldl {α : Type} (sel : α → String) (l : List α)
    (m : List (String × Nat)) :
    sumCounts (l.foldl (fun acc r => bump acc (sel r)) m) =
      sumCounts m + l.length := by
  induction l generalizing m with
  | nil => simp
  | cons r t ih =>
    simp only [List.foldl_cons, List.length_cons]
    rw [ih, sumCounts_bump]
    omega

/-- Bucket characterization: the aggregated count of a key is the number of
records whose selector value is that key. -/
theorem lookupCount_aggregate {α : Type} (sel : α → String) (l : List α) (k : String) :
    lookupCount (aggregate sel l) k = keyCount (l.map sel) k := by
  simpa [aggregate, lookupCount] using lookupCount_foldl sel l [] k

theorem keyCount_perm {l l' : List String} (h : l.Perm l') (k : String) :
    keyCount l k = keyCount l' k := by
  induction h with
  | nil => rfl
  | cons x _ ih => simp [keyCount, ih]
  | swap x y t => simp [keyCount]; omega
  | trans _ _ ih1 ih2 => exact ih1.trans ih2

/-- Claim C1: every record fetched in a cycle is counted into exactly one
label bucket (the bucket of its selector value), and the sum of all bucket
counts in the aggregated mapping equals the length of the fetched record
list. -/
theorem c1_aggregate_bucket_partition {α : Type} (sel : α → String) (records : List α) :
    sumCounts (aggregate sel records) = records.length ∧
    ∀ k, lookupCount (aggregate sel records) k = keyCount (records.map sel) k := by
  constructor
  · simpa [aggregate, sumCounts] using sumCounts_foldl sel records []
  · intro k
    exact lookupCount_aggregate sel records k

/-- Claim C5: aggregation is invariant under permutation of the input record
list — every bucket receives the same count. -/
theorem c5_aggregate_perm_invariant {α : Type} (sel : α → String)
    (l l' : List α) (h : l.Perm l') (k : String) :
    lookupCount (aggregate sel l) k = lookupCount (aggregate sel l') k := by
  rw [lookupCount_aggregate, lookupCount_aggregate]
  exact keyCount_perm (h.map sel) k

/-- Witness for C5 at a concrete permutation of firewall-rule records. -/
theorem c5_witness :
    ([Firewall.mk "a", Firewall.mk "b"]).Perm [Firewall.mk "b", Firewall.mk "a"] ∧
    lookupCount (aggregate Firewall.network [Firewall.mk "a", Firewall.mk "b"]) "a" =
      lookupCount (aggregate Firewall.network [Firewall.mk "b", Firewall.mk "a"]) "a" :=
  ⟨List.Perm.swap _ _ _,
   c5_aggregate_perm_invariant Firewall.network _ _ (List.Perm.swap _ _ _) "a"⟩

/-- The fixed custom-metric namespacing string used by both push variants for
metric names and label keys. -/
def customMetricDomain : String := "custom.cloudmonitoring.googleapis.com/"

/-- Declaration-time description of a custom metric (name, help text, label
keys); shared by both push variants. -/
structure MetricDescription where
  name : String
  description : String
  labels : List String
deriving DecidableEq

/-- A label descriptor as sent to the monitoring API at registration time. -/
structure MetricDescriptorLabelDescriptor where
  key : String
  description : String
deriving DecidableEq

/-- The metric descriptor registered with the monitoring API at startup. -/
structure MetricDescriptor where
  project : String
  name : String
  description : String
  metricType : String
  valueType : String
  labels : List MetricDescriptorLabelDescriptor
deriving DecidableEq

/-- Construction of the registered descriptor, as done inside
`createMetricDescriptor` (interface variant, valueType "int64") and
`CreateMetricDescriptors` (plain variant, valueType "double"): the metric
name and every label key get the custom-metric namespacing string
prepended. -/
def buildMetricDescriptor (projectName valueType : String)
    (metric : MetricDescription) : MetricDescriptor :=
  { project := projectName
    name := customMetricDomain ++ metric.name
    description := metric.description
    metricType := "gauge"
    valueType := valueType
    labels :=
      if metric.labels.length ≠ 0 then
        metric.labels.map fun l =>
          { key := customMetricDomain ++ l, description := l }
      else [] }

/-- One timeseries point of a write request (TimeseriesDescriptor fields plus
the point value and its start/end timestamps, both set to "now"). -/
structure TimeseriesPoint where
  metric : String
  project : String
  labels : Option (List (String × String))
  value : Int
  startTime : String
  endTime : String
deriving DecidableEq

/-- The observable effect of one report call on the monitoring sink: either
no write request at all, or one write request carrying a batch of points. -/
inductive WriteAction where
  | noWrite
  | write (points : List TimeseriesPoint)
deriving DecidableEq

/-- Label translation applied by both push reporters before sending: each
plain label key gets the custom-metric namespacing string prepended; a nil
map stays nil; values are untouched. -/
def fixLabels : Option (List (String × String)) → Option (List (String × String))
  | none => none
  | some labels => some (labels.map fun q => (customMetricDomain ++ q.1, q.2))

/-- The point-building loop `for i, val := range values` shared by both push
reporters: one point per value; the i-th point carries the translated i-th
label map when present, and no labels otherwise. -/
def buildPoints (projectName now name : String)
    (labels : List (Option (List (String × String)))) :
    Nat → List Int → List TimeseriesPoint
  | _, [] => []
  | i, val :: rest =>
    { metric := customMetricDomain ++ name
      project := projectName
      labels :=
        match labels.get? i with
        | some lm => fixLabels lm
        | none => none
      value := val
      startTime := now
      endTime := now } :: buildPoints projectName now name labels (i + 1) rest

/-- Interface push variant: `Monitor.ReportLabeledTimeseries`.  An empty
value list returns before building the request — no write call is made. -/
def PushIface.ReportLabeledTimeseries (projectName now name : String)
    (values : List Int) (labels : List (Option (List (String × String)))) :
    WriteAction :=
  if values.length = 0 then WriteAction.noWrite
  else WriteAction.write (buildPoints projectName now name labels 0 values)

/-- Interface push variant: `Monitor.ReportTimeseries` — a single unlabeled
value reported through the labeled path with a nil label slice. -/
def PushIface.ReportTimeseries (projectName now name : String) (value : Int) :
    WriteAction :=
  PushIface.ReportLabeledTimeseries projectName now name [value] []

/-- Plain push variant: `Monitor.reportLabeledTimeseries`.  No empty-batch
early return: the write call is always issued, possibly with zero points. -/
def PushPlain.reportLabeledTimeseries (projectName now name : String)
    (values : List Int) (labels : List (Option (List (String × String)))) :
    WriteAction :=
  WriteAction.write (buildPoints projectName now name labels 0 values)

/-- Plain push variant: `Monitor.reportTimeseries`. -/
def PushPlain.reportTimeseries (projectName now name : String) (value : Int) :
    WriteAction :=
  PushPlain.reportLabeledTimeseries projectName now name [value] []

/-- Metric declared by `FirewallRules.MetricDescription` (interface variant). -/
def PushIface.FirewallRules.metricDescription : MetricDescription :=
  { name := "gce_firewall_rules"
    description := "Count of firewall rules in the project, labeled by network"
    labels := ["network"] }

/-- Metric declared by `TargetPools.MetricDescription` (interface variant). -/
def PushIface.TargetPools.metricDescription : MetricDescription :=
  { name := "gce_target_pools"
    description := "Count of target pools in the project"
    labels := [] }

/-- Metric declared by `ForwardingRules.MetricDescription` (interface variant). -/
def PushIface.ForwardingRules.metricDescription : MetricDescription :=
  { name := "gce_forwarding_rules"
    description := "Count of forwarding rules in the project"
    labels := [] }

/-- Metric declared by `GlobalForwardingRules.MetricDescription` (interface variant). -/
def PushIface.GlobalForwardingRules.metricDescription : MetricDescription :=
  { name := "gce_global_forwarding_rules"
    description := "Count of global forwarding rules in the project"
    labels := [] }

/-- Metric declared by `Addresses.MetricDescription` (interface variant). -/
def PushIface.Addresses.metricDescription : MetricDescription :=
  { name := "gce_addresses"
    description := "Count of external IP addresses in the project, labeled by status"
    labels := ["status"] }

/-- Metric declared by `GlobalAddresses.MetricDescription` (interface variant). -/
def PushIface.GlobalAddresses.metricDescription : MetricDescription :=
  { name := "gce_global_addresses"
    description := "Count of global external IP addresses in the project, labeled by status"
    labels := ["status"] }

/-- Metric declared by `Networks.MetricDescription` (interface variant);
note it declares the label key "network". -/
def PushIface.Networks.metricDescription : MetricDescription :=
  { name := "gce_networks"
    description := "Count of networks in the project"
    labels := ["network"] }

/-- Metric declared by `Routes.MetricDescription` (interface variant);
note it declares the label key "network". -/
def PushIface.Routes.metricDescription : MetricDescription :=
  { name := "gce_routes"
    description := "Count of routes in the project"
    labels := ["network"] }

/-- Data flow of `FirewallRules.ProcessMetric` after a successful fetch:
aggregate by network, then report through the labeled path. -/
def PushIface.FirewallRules.processEmit (projectName now : String)
    (items : List Firewall) : WriteAction :=
  let metrics := aggregate Firewall.network items
  PushIface.ReportLabeledTimeseries projectName now "gce_firewall_rules"
    (metrics.map fun q => (q.2 : Int))
    (metrics.map fun q => some [("network", q.1)])

/-- Data flow of `TargetPools.ProcessMetric` after a successful fetch: the
aggregated list's item map is counted and reported unlabeled. -/
def PushIface.TargetPools.processEmit (projectName now : String)
    (items : List (String × List TargetPool)) : WriteAction :=
  PushIface.ReportTimeseries projectName now "gce_target_pools" (items.length : Int)

/-- Data flow of `Networks.ProcessMetric` after a successful fetch: the item
count is reported through the unlabeled path (no label map at all). -/
def PushIface.Networks.processEmit (projectName now : String)
    (items : List Network) : WriteAction :=
  PushIface.ReportTimeseries projectName now "gce_networks" (items.length : Int)

/-- Data flow of `Routes.ProcessMetric` after a successful fetch: the item
count is reported through the unlabeled path (no label map at all). -/
def PushIface.Routes.processEmit (projectName now : String)
    (items : List Route) : WriteAction :=
  PushIface.ReportTimeseries projectName now "gce_routes" (items.length : Int)

/-- Data flow of `Monitor.ProcessFirewallRules` (plain variant) after a
successful fetch. -/
def PushPlain.ProcessFirewallRulesEmit (projectName now : String)
    (items : List Firewall) : WriteAction :=
  let metrics := aggregate Firewall.network items
  PushPlain.reportLabeledTimeseries projectName now "gce_firewall_rules"
    (metrics.map fun q => (q.2 : Int))
    (metrics.map fun q => some [("network", q.1)])

/-- Data flow of `Monitor.ProcessTargetPools` (plain variant) after a
successful fetch. -/
def PushPlain.ProcessTargetPoolsEmit (projectName now : String)
    (items : List (String × List TargetPool)) : WriteAction :=
  PushPlain.reportTimeseries projectName now "gce_target_pools" (items.length : Int)

theorem buildPoints_length (projectName now name : String)
    (labels : List (Option (List (String × String)))) (i : Nat) (values : List Int) :
    (buildPoints projectName now name labels i values).length = values.length := by
  induction values generalizing i with
  | nil => rfl
  | cons v t ih => simp [buildPoints, ih]

/-- A forwarding rule record. -/
structure ForwardingRule where
  name : String
deriving DecidableEq

/-- Observable effect on the Prometheus gauge registry (pull variant):
`setVec` is `GaugeVec.WithLabelValues(label).Set(value)`, `set` is
`Gauge.Set(value)`. -/
inductive PromEvent where
  | setVec (metric : String) (label : String) (value : Nat)
  | set (metric : String) (value : Nat)
deriving DecidableEq

/-- Pull variant `processFirewallRules` after the gcloud call: a fetch or
decode error logs and returns without touching any gauge; otherwise the
firewalls are aggregated by network and one labeled gauge is set per
bucket. -/
def PullProm.processFirewallRules : Except String (List Firewall) → List PromEvent
  | Except.error _ => []
  | Except.ok firewalls =>
      (aggregate Firewall.network firewalls).map fun q =>
        PromEvent.setVec "gce_firewall_rules" q.1 q.2

/-- Pull variant `processAddresses`: aggregate by status into the labeled
gauge. -/
def PullProm.processAddresses : Except String (List Address) → List PromEvent
  | Except.error _ => []
  | Except.ok addresses =>
      (aggregate Address.status addresses).map fun q =>
        PromEvent.setVec "gce_ip_addresses" q.1 q.2

/-- Pull variant `processTargetPools`: the unlabeled gauge is set to the
record count (also when the count is zero). -/
def PullProm.processTargetPools : Except String (List TargetPool) → List PromEvent
  | Except.error _ => []
  | Except.ok targetPools => [PromEvent.set "gce_target_pools" targetPools.length]

/-- Pull variant `processForwadingRules` (sic, source spelling). -/
def PullProm.processForwadingRules : Except String (List ForwardingRule) → List PromEvent
  | Except.error _ => []
  | Except.ok fwdRules => [PromEvent.set "gce_forwarding_rules" fwdRules.length]

/-- Pull variant `processNetworks`. -/
def PullProm.processNetworks : Except String (List Network) → List PromEvent
  | Except.error _ => []
  | Except.ok networks => [PromEvent.set "gce_networks" networks.length]

/-- Pull variant `processRoutes`: a transport or decode error logs a warning
and returns; otherwise the unlabeled gauge is set to the route count. -/
def PullProm.processRoutes : Except String (List Route) → List PromEvent
  | Except.error _ => []
  | Except.ok routes => [PromEvent.set "gce_routes" routes.length]

/-- The per-cycle fetch results delivered by the gcloud subprocess for each
resource kind (an error covers both transport and JSON-decode failures, which
the source handles identically: log and return). -/
structure PullProm.FetchWorld where
  firewalls : Except String (List Firewall)
  forwardingRules : Except String (List ForwardingRule)
  targetPools : Except String (List TargetPool)
  routes : Except String (List Route)
  networks : Except String (List Network)
  addresses : Except String (List Address)

/-- One cycle of the pull variant `runScraper` loop body: the six process
functions run sequentially and independently, in source order. -/
def PullProm.runScraperCycle (w : PullProm.FetchWorld) : List PromEvent :=
  PullProm.processFirewallRules w.firewalls ++
  PullProm.processForwadingRules w.forwardingRules ++
  PullProm.processTargetPools w.targetPools ++
  PullProm.processRoutes w.routes ++
  PullProm.processNetworks w.networks ++
  PullProm.processAddresses w.addresses

/-- Pull variant `checkArgs`: an empty project name is a fatal startup error
(`log.Fatalf`), returned here as the fatal message. -/
def PullProm.checkArgs (projectName : String) : Option String :=
  if projectName = "" then
    some "Error: Empty project. A project name must be specified."
  else none

/-- Claim C3: aggregating an empty record list with a labeled selector yields
an empty mapping, hence zero observations (no gauge set in the pull variant,
no write call in the interface push variant, an empty write batch in the
plain push variant); an empty list for an unlabeled metric yields a single
zero-valued observation.  The labeled and unlabeled empty cases are
asymmetric. -/
theorem c3_empty_list_asymmetry (projectName now : String) (sel : Firewall → String) :
    aggregate sel ([] : List Firewall) = [] ∧
    PullProm.processFirewallRules (Except.ok []) = [] ∧
    PullProm.processTargetPools (Except.ok []) = [PromEvent.set "gce_target_pools" 0] ∧
    PushIface.FirewallRules.processEmit projectName now [] = WriteAction.noWrite ∧
    PushIface.TargetPools.processEmit projectName now [] =
      WriteAction.write
        [{ metric := customMetricDomain ++ "gce_target_pools"
           project := projectName
           labels := none
           value := 0
           startTime := now
           endTime := now }] ∧
    PushPlain.ProcessFirewallRulesEmit projectName now [] = WriteAction.write [] :=
  ⟨rfl, rfl, rfl, rfl, rfl, rfl⟩

/-- Claim C6 (scenario): three firewall records with networks "a", "a", "b"
aggregate to the mapping with "a" counted 2 and "b" counted 1, and the
interface-variant processing emits exactly two observations, (label "a",
value 2) and (label "b", value 1), with namespaced metric and label keys. -/
theorem c6_scenario_network_aab :
    aggregate Firewall.network [Firewall.mk "a", Firewall.mk "a", Firewall.mk "b"] =
      [("a", 2), ("b", 1)] ∧
    PushIface.FirewallRules.processEmit "p" "t"
      [Firewall.mk "a", Firewall.mk "a", Firewall.mk "b"] =
      WriteAction.write
        [{ metric := customMetricDomain ++ "gce_firewall_rules"
           project := "p"
           labels := some [(customMetricDomain ++ "network", "a")]
           value := 2
           startTime := "t"
           endTime := "t" },
         { metric := customMetricDomain ++ "gce_firewall_rules"
           project := "p"
           labels := some [(customMetricDomain ++ "network", "b")]
           value := 1
           startTime := "t"
           endTime := "t" }] :=
  ⟨rfl, rfl⟩

/-- Counterexample to claim C2 as stated: in the plain push variant, passing
an empty aggregated mapping to the labeled report operation still makes a
write call to the sink — the request is issued with an empty batch, it is not
the case that no write call is made. -/
theorem c2_counterexample_plain_reporter_empty_batch :
    PushPlain.reportLabeledTimeseries "p" "t" "gce_firewall_rules" [] [] =
      WriteAction.write [] ∧
    WriteAction.write [] ≠ WriteAction.noWrite :=
  ⟨rfl, by decide⟩

/-- Claim C2 as amended: both labeled reporters emit exactly one observation
per bucket of the mapping; on an empty mapping the interface variant makes no
write call at all, while the plain variant still makes a write call carrying
zero observations. -/
theorem c2_reporter_observation_count (projectName now name : String)
    (values : List Int) (labels : List (Option (List (String × String))))
    (hne : values ≠ []) :
    PushIface.ReportLabeledTimeseries projectName now name [] labels =
      WriteAction.noWrite ∧
    (∃ pts, PushIface.ReportLabeledTimeseries projectName now name values labels =
        WriteAction.write pts ∧ pts.length = values.length) ∧
    (∃ pts, PushPlain.reportLabeledTimeseries projectName now name values labels =
        WriteAction.write pts ∧ pts.length = values.length) := by
  refine ⟨rfl, ⟨buildPoints projectName now name labels 0 values, ?_,
      buildPoints_length projectName now name labels 0 values⟩,
    ⟨buildPoints projectName now name labels 0 values, rfl,
      buildPoints_length projectName now name labels 0 values⟩⟩
  have hlen : ¬ values.length = 0 := fun h => hne (List.length_eq_zero.mp h)
  simp [PushIface.ReportLabeledTimeseries, hlen]

/-- Witness for C2 (amended) at a concrete one-bucket mapping. -/
theorem c2_witness :
    ([(7 : Int)] ≠ ([] : List Int)) ∧
    (∃ pts, PushIface.ReportLabeledTimeseries "p" "t" "gce_firewall_rules"
        [(7 : Int)] [] = WriteAction.write pts ∧ pts.length = [(7 : Int)].length) :=
  ⟨by decide,
   (c2_reporter_observation_count "p" "t" "gce_firewall_rules"
      [(7 : Int)] [] (by decide)).2.1⟩

/-- Claim C7: for a label name declared by a metric, the registration-time
label key is exactly the custom-metric namespacing string followed by the
plain label name, and the reporter's label translation sends every label
entry to exactly that same namespaced key with its value unchanged. -/
theorem c7_label_key_namespacing (projectName valueType : String)
    (metric : MetricDescription) (l : String)
    (lm : List (String × String)) (v : String)
    (hl : l ∈ metric.labels) (hv : (l, v) ∈ lm) :
    (∃ ld, ld ∈ (buildMetricDescriptor projectName valueType metric).labels ∧
        ld.key = customMetricDomain ++ l ∧ ld.description = l) ∧
    (customMetricDomain ++ l, v) ∈ (fixLabels (some lm)).getD [] := by
  constructor
  · refine ⟨{ key := customMetricDomain ++ l, description := l }, ?_, rfl, rfl⟩
    have hne : metric.labels.length ≠ 0 := by
      cases hm : metric.labels with
      | nil => rw [hm] at hl; cases hl
      | cons a t => simp [hm]
    simp only [buildMetricDescriptor, if_pos hne]
    exact List.mem_map.mpr ⟨l, hl, rfl⟩
  · simp only [fixLabels, Option.getD_some]
    exact List.mem_map.mpr ⟨(l, v), hv, rfl⟩

/-- Witness for C7 on the firewall-rules metric and its "network" label. -/
theorem c7_witness :
    ("network" ∈ PushIface.FirewallRules.metricDescription.labels) ∧
    (("network", "a") ∈ [("network", "a")]) ∧
    (∃ ld, ld ∈ (buildMetricDescriptor "p" "int64"
        PushIface.FirewallRules.metricDescription).labels ∧
        ld.key = customMetricDomain ++ "network" ∧ ld.description = "network") ∧
    (customMetricDomain ++ "network", "a") ∈
      (fixLabels (some [("network", "a")])).getD [] := by
  have h := c7_label_key_namespacing "p" "int64"
    PushIface.FirewallRules.metricDescription "network" [("network", "a")] "a"
    (by decide) (by decide)
  exact ⟨by decide, by decide, h.1, h.2⟩

/-- Claim C10: in the interface push variant, the metrics gce_networks and
gce_routes are declared with the label key "network", yet their processing
reports through the unlabeled path, so every emitted observation carries no
labels at all — the registered label dimension is never populated. -/
theorem c10_networks_routes_label_never_populated (projectName now : String)
    (networks : List Network) (routes : List Route) :
    PushIface.Networks.metricDescription.labels = ["network"] ∧
    PushIface.Routes.metricDescription.labels = ["network"] ∧
    PushIface.Networks.processEmit projectName now networks =
      WriteAction.write
        [{ metric := customMetricDomain ++ "gce_networks"
           project := projectName
           labels := none
           value := (networks.length : Int)
           startTime := now
           endTime := now }] ∧
    PushIface.Routes.processEmit projectName now routes =
      WriteAction.write
        [{ metric := customMetricDomain ++ "gce_routes"
           project := projectName
           labels := none
           value := (routes.length : Int)
           startTime := now
           endTime := now }] :=
  ⟨rfl, rfl, rfl, rfl⟩

/-- Outcome of the interface variant `Monitor.createMetricDescriptor`: a sink
error triggers `log.Fatalf` (process termination), modelled as `fatal`; the
source's fatal message says "firewall" for every metric. -/
inductive RegOutcome where
  | fatal (msg : String)
  | registered (md : MetricDescriptor)
deriving DecidableEq

/-- Interface variant `Monitor.createMetricDescriptor`: build the int64
descriptor, send it to the sink, and terminate the process on error. -/
def PushIface.createMetricDescriptor (projectName : String)
    (sink : MetricDescriptor → Except String String)
    (metric : MetricDescription) : RegOutcome :=
  let md := buildMetricDescriptor projectName "int64" metric
  match sink md with
  | Except.error e => RegOutcome.fatal ("Error creating firewall metric: " ++ e)
  | Except.ok _ => RegOutcome.registered md

/-- Plain variant `Monitor.CreateMetricDescriptors`: register the double
descriptors one by one; the first sink error is fatal (`log.Fatalf`),
modelled as the error result. -/
def PushPlain.CreateMetricDescriptors (projectName : String)
    (sink : MetricDescriptor → Except String String) :
    List MetricDescription → Except String (List MetricDescriptor)
  | [] => Except.ok []
  | d :: rest =>
    let md := buildMetricDescriptor projectName "double" d
    match sink md with
    | Except.error e => Except.error ("Error creating firewall metric: " ++ e)
    | Except.ok _ =>
        (PushPlain.CreateMetricDescriptors projectName sink rest).map (md :: ·)

/-- The fixed set of metric kinds of the interface variant (the
`customMetrics` slice of `CustomGaugeMetric` implementations). -/
inductive MetricKind where
  | firewallRules
  | targetPools
  | forwardingRules
  | globalForwardingRules
  | addresses
  | globalAddresses
  | networks
  | routes
deriving DecidableEq

/-- `MetricDescription()` of each interface implementation. -/
def metricDescriptionOf : MetricKind → MetricDescription
  | MetricKind.firewallRules => PushIface.FirewallRules.metricDescription
  | MetricKind.targetPools => PushIface.TargetPools.metricDescription
  | MetricKind.forwardingRules => PushIface.ForwardingRules.metricDescription
  | MetricKind.globalForwardingRules => PushIface.GlobalForwardingRules.metricDescription
  | MetricKind.addresses => PushIface.Addresses.metricDescription
  | MetricKind.globalAddresses => PushIface.GlobalAddresses.metricDescription
  | MetricKind.networks => PushIface.Networks.metricDescription
  | MetricKind.routes => PushIface.Routes.metricDescription

/-- Plain metric name of a kind, as used in the loop's error log line. -/
def metricName (k : MetricKind) : String :=
  (metricDescriptionOf k).name

/-- The `customMetrics` slice, in source order. -/
def customMetrics : List MetricKind :=
  [MetricKind.firewallRules, MetricKind.targetPools, MetricKind.forwardingRules,
   MetricKind.globalForwardingRules, MetricKind.addresses,
   MetricKind.globalAddresses, MetricKind.networks, MetricKind.routes]

/-- The registration loop of the interface variant's `main`: one
`createMetricDescriptor` call per custom metric; the first fatal outcome
terminates the process. -/
def PushIface.registerAll (projectName : String)
    (sink : MetricDescriptor → Except String String) :
    List MetricKind → Except String (List MetricDescriptor)
  | [] => Except.ok []
  | m :: rest =>
    match PushIface.createMetricDescriptor projectName sink (metricDescriptionOf m) with
    | RegOutcome.fatal msg => Except.error msg
    | RegOutcome.registered md =>
        (PushIface.registerAll projectName sink rest).map (md :: ·)

/-- Where the interface variant's `main` ends up before its scrape loop:
a fatal configuration error, a fatal registration error, or the loop. -/
inductive MainPhase where
  | fatalConfig (msg : String)
  | fatalRegistration (msg : String)
  | scraping
deriving DecidableEq

/-- Startup sequence of the interface variant's `main`: the empty-project
check runs first and is fatal; then every metric is registered, a failure
being fatal; only then is the scrape loop entered. -/
def PushIface.mainStartup (projectName : String)
    (sink : MetricDescriptor → Except String String) : MainPhase :=
  if projectName = "" then
    MainPhase.fatalConfig "Error: Empty project. A project name must be specified."
  else
    match PushIface.registerAll projectName sink customMetrics with
    | Except.error e => MainPhase.fatalRegistration e
    | Except.ok _ => MainPhase.scraping

/-- What one `ProcessMetric` call does, as seen by the loop of `main`: the
write requests it issued to the sink, and the error value it returned. -/
structure ProcResult where
  writes : List WriteAction
  err : Option String

/-- Observable events of one scrape cycle: write requests issued while
processing a kind, and the loop's error log line for a kind. -/
inductive CycleEvent where
  | sinkWrite (kind : MetricKind) (action : WriteAction)
  | logError (kind : MetricKind) (msg : String)
deriving DecidableEq

/-- The metric kind an event belongs to. -/
def eventKind : CycleEvent → MetricKind
  | CycleEvent.sinkWrite k _ => k
  | CycleEvent.logError k _ => k

/-- Events contributed by one iteration of the loop body
`if err := m.ProcessMetric(monitor); err != nil { log.Printf(...) }`:
the writes performed, then the error log line when an error was returned. -/
def kindEvents (process : MetricKind → ProcResult) (m : MetricKind) :
    List CycleEvent :=
  (process m).writes.map (CycleEvent.sinkWrite m) ++
    match (process m).err with
    | some e =>
        [CycleEvent.logError m
          ("ERROR: Error processing metric " ++ metricName m ++ ". Err: " ++ e)]
    | none => []

/-- The loop `for _, m := range customMetrics` over a list of kinds: each
kind is processed in order, unconditionally. -/
def scrapeCycleAux (process : MetricKind → ProcResult) :
    List MetricKind → List CycleEvent
  | [] => []
  | m :: rest => kindEvents process m ++ scrapeCycleAux process rest

/-- One full scrape cycle of the interface variant's `main`. -/
def scrapeCycle (process : MetricKind → ProcResult) : List CycleEvent :=
  scrapeCycleAux process customMetrics

/-- The outer `for { ... time.Sleep(...) }` loop, truncated at `n` cycles:
cycle `i` runs with that cycle's processing behavior, unconditionally. -/
def runScraper (process : Nat → MetricKind → ProcResult) : Nat → List (List CycleEvent)
  | 0 => []
  | n + 1 => runScraper process n ++ [scrapeCycle (process n)]

theorem eventKind_of_mem_kindEvents (process : MetricKind → ProcResult)
    (m : MetricKind) (ev : CycleEvent) (hev : ev ∈ kindEvents process m) :
    eventKind ev = m := by
  unfold kindEvents at hev
  rcases List.mem_append.mp hev with h | h
  · obtain ⟨w, _, rfl⟩ := List.mem_map.mp h
    rfl
  · cases herr : (process m).err with
    | none => rw [herr] at h; cases h
    | some e =>
      rw [herr] at h
      rcases List.mem_singleton.mp h with rfl
      rfl

theorem filter_scrapeCycleAux (process : MetricKind → ProcResult)
    (k' : MetricKind) (l : List MetricKind) :
    (scrapeCycleAux process l).filter (fun ev => decide (eventKind ev = k')) =
      scrapeCycleAux process (l.filter (fun m => decide (m = k'))) := by
  induction l with
  | nil => rfl
  | cons m rest ih =>
    simp only [scrapeCycleAux, List.filter_append, ih, List.filter_cons]
    by_cases hm : m = k'
    · subst hm
      have hseg : (kindEvents process m).filter
          (fun ev => decide (eventKind ev = m)) = kindEvents process m := by
        refine List.filter_eq_self.mpr fun ev hev => ?_
        simpa using eventKind_of_mem_kindEvents process m ev hev
      simp [hseg, scrapeCycleAux]
    · have hseg : (kindEvents process m).filter
          (fun ev => decide (eventKind ev = k')) = [] := by
        refine List.filter_eq_nil_iff.mpr fun ev hev => ?_
        have := eventKind_of_mem_kindEvents process m ev hev
        simp [this, hm]
      simp [hseg, hm]

theorem filter_customMetrics (k' : MetricKind) :
    customMetrics.filter (fun m => decide (m = k')) = [k'] := by
  cases k' <;> rfl

theorem mem_scrapeCycleAux (process : MetricKind → ProcResult)
    (m : MetricKind) (ev : CycleEvent) (l : List MetricKind)
    (hm : m ∈ l) (hev : ev ∈ kindEvents process m) :
    ev ∈ scrapeCycleAux process l := by
  induction l with
  | nil => cases hm
  | cons a rest ih =>
    rcases List.mem_cons.mp hm with rfl | h
    · exact List.mem_append_left _ hev
    · exact List.mem_append_right _ (ih h)

theorem mem_customMetrics (k : MetricKind) : k ∈ customMetrics := by
  cases k <;> simp [customMetrics]

theorem runScraper_length (process : Nat → MetricKind → ProcResult) (n : Nat) :
    (runScraper process n).length = n := by
  induction n with
  | zero => rfl
  | succ n ih => simp [runScraper, ih]

/-- Claim C4: a failure of any single metric kind's processing in a cycle is
logged by the loop; every kind's events in the cycle are exactly its own
processing output, so every other configured kind is still processed and
unaffected; the outer loop still runs every cycle; and in the pull variant a
routes fetch error only removes the routes gauge update from the cycle. -/
theorem c4_cycle_isolates_metric_failures
    (process : MetricKind → ProcResult) (k k' : MetricKind) (e : String)
    (procs : Nat → MetricKind → ProcResult) (n : Nat)
    (w : PullProm.FetchWorld) (e2 : String)
    (h : (process k).err = some e) :
    CycleEvent.logError k
        ("ERROR: Error processing metric " ++ metricName k ++ ". Err: " ++ e) ∈
      scrapeCycle process ∧
    (scrapeCycle process).filter (fun ev => decide (eventKind ev = k')) =
      kindEvents process k' ∧
    (runScraper procs n).length = n ∧
    PullProm.runScraperCycle { w with routes := Except.error e2 } =
      PullProm.processFirewallRules w.firewalls ++
      PullProm.processForwadingRules w.forwardingRules ++
      PullProm.processTargetPools w.targetPools ++
      PullProm.processNetworks w.networks ++
      PullProm.processAddresses w.addresses := by
  refine ⟨?_, ?_, runScraper_length procs n, ?_⟩
  · refine mem_scrapeCycleAux process k _ customMetrics (mem_customMetrics k) ?_
    unfold kindEvents
    rw [h]
    exact List.mem_append_right _ (List.mem_singleton.mpr rfl)
  · rw [scrapeCycle, filter_scrapeCycleAux, filter_customMetrics]
    simp [scrapeCycleAux]
  · simp [PullProm.runScraperCycle, PullProm.processRoutes]

/-- Witness for C4: a cycle in which only the routes kind fails with a
transport error. -/
theorem c4_witness :
    CycleEvent.logError MetricKind.routes
        ("ERROR: Error processing metric " ++ metricName MetricKind.routes ++
          ". Err: " ++ "transport error") ∈
      scrapeCycle (fun k =>
        if k = MetricKind.routes then ProcResult.mk [] (some "transport error")
        else ProcResult.mk [WriteAction.write []] none) ∧
    (scrapeCycle (fun k =>
        if k = MetricKind.routes then ProcResult.mk [] (some "transport error")
        else ProcResult.mk [WriteAction.write []] none)).filter
        (fun ev => decide (eventKind ev = MetricKind.networks)) =
      kindEvents (fun k =>
        if k = MetricKind.routes then ProcResult.mk [] (some "transport error")
        else ProcResult.mk [WriteAction.write []] none) MetricKind.networks := by
  have h := c4_cycle_isolates_metric_failures
    (fun k =>
      if k = MetricKind.routes then ProcResult.mk [] (some "transport error")
      else ProcResult.mk [WriteAction.write []] none)
    MetricKind.routes MetricKind.networks "transport error"
    (fun _ _ => ProcResult.mk [] none) 3
    (PullProm.FetchWorld.mk (Except.ok []) (Except.ok []) (Except.ok [])
      (Except.ok []) (Except.ok []) (Except.ok [])) "err"
    rfl
  exact ⟨h.1, h.2.1⟩

/-- Claim C8: in both push variants, a sink failure while registering a
metric descriptor at startup is fatal — the interface variant's
`createMetricDescriptor` terminates the process, the plain variant's
`CreateMetricDescriptors` terminates on any failing descriptor of its list,
and a registration failure in `main` leaves the process in the fatal
registration phase, never reaching the scrape loop. -/
theorem c8_registration_failure_fatal (projectName : String)
    (sink : MetricDescriptor → Except String String)
    (metric : MetricDescription) (e e3 : String)
    (descs : List MetricDescription)
    (hsink : sink (buildMetricDescriptor projectName "int64" metric) = Except.error e)
    (hany : ∃ d ∈ descs, ∃ e2,
        sink (buildMetricDescriptor projectName "double" d) = Except.error e2)
    (hreg : PushIface.registerAll projectName sink customMetrics = Except.error e3)
    (hp : projectName ≠ "") :
    PushIface.createMetricDescriptor projectName sink metric =
      RegOutcome.fatal ("Error creating firewall metric: " ++ e) ∧
    (∃ msg, PushPlain.CreateMetricDescriptors projectName sink descs =
        Except.error msg) ∧
    PushIface.mainStartup projectName sink = MainPhase.fatalRegistration e3 := by
  refine ⟨?_, ?_, ?_⟩
  · simp [PushIface.createMetricDescriptor, hsink]
  · clear hsink hreg
    induction descs with
    | nil =>
      obtain ⟨d, hd, _⟩ := hany
      cases hd
    | cons d rest ih =>
      cases hs : sink (buildMetricDescriptor projectName "double" d) with
      | error msg =>
        exact ⟨"Error creating firewall metric: " ++ msg,
          by simp [PushPlain.CreateMetricDescriptors, hs]⟩
      | ok s =>
        obtain ⟨d', hd', e2, he2⟩ := hany
        rcases List.mem_cons.mp hd' with rfl | h2
        · rw [hs] at he2
          cases he2
        · obtain ⟨msg, hmsg⟩ := ih ⟨d', h2, e2, he2⟩
          exact ⟨msg, by simp [PushPlain.CreateMetricDescriptors, hs, hmsg, Except.map]⟩
  · simp [PushIface.mainStartup, hp, hreg]

/-- Witness for C8 with a sink that rejects every descriptor. -/
theorem c8_witness :
    PushIface.createMetricDescriptor "proj" (fun _ => Except.error "boom")
        PushIface.FirewallRules.metricDescription =
      RegOutcome.fatal ("Error creating firewall metric: " ++ "boom") ∧
    (∃ msg, PushPlain.CreateMetricDescriptors "proj" (fun _ => Except.error "boom")
        [PushIface.FirewallRules.metricDescription] = Except.error msg) ∧
    PushIface.mainStartup "proj" (fun _ => Except.error "boom") =
      MainPhase.fatalRegistration ("Error creating firewall metric: " ++ "boom") :=
  c8_registration_failure_fatal "proj" (fun _ => Except.error "boom")
    PushIface.FirewallRules.metricDescription "boom"
    ("Error creating firewall metric: " ++ "boom")
    [PushIface.FirewallRules.metricDescription]
    rfl
    ⟨PushIface.FirewallRules.metricDescription, List.mem_singleton.mpr rfl, "boom", rfl⟩
    rfl
    (by decide)

/-- Claim C9: an empty project identifier is a fatal configuration error in
both variants, detected before any registration or scrape work (for every
sink behavior), and every non-empty project identifier passes the check. -/
theorem c9_empty_project_fatal (projectName : String)
    (sink : MetricDescriptor → Except String String) (hp : projectName ≠ "") :
    PullProm.checkArgs "" =
      some "Error: Empty project. A project name must be specified." ∧
    PullProm.checkArgs projectName = none ∧
    PushIface.mainStartup "" sink =
      MainPhase.fatalConfig "Error: Empty project. A project name must be specified." := by
  refine ⟨rfl, ?_, rfl⟩
  simp [PullProm.checkArgs, hp]

/-- Witness for C9 at a concrete non-empty project name and a sink that
would fail registration (showing the configuration check fires first). -/
theorem c9_witness :
    PullProm.checkArgs "" =
      some "Error: Empty project. A project name must be specified." ∧
    PullProm.checkArgs "proj" = none ∧
    PushIface.mainStartup "" (fun _ => Except.error "boom") =
      MainPhase.fatalConfig "Error: Empty project. A project name must be specified." :=
  c9_empty_project_fatal "proj" (fun _ => Except.error "boom") (by decide)
